import Mathlib

set_option maxRecDepth 8000

/-!
Verification of the Gemini AiDesigner app (piotrmacai/Gemini-AiDesignerApp).

Shallow embedding of the two source components the specification talks about:
* `src/services/geminiService.ts` — prompt assembly, the `numberOfImages`
  fan-out of single-image generation requests, per-response parsing, and the
  `fileToBase64` attachment codec;
* `src/App.tsx` — the session store (create / delete / ensure-valid-current /
  `updateCurrentSession`) and the `handleSend` orchestration.

External effects are modelled by explicit oracles: the Gemini API is a function
from the request parts and the fan-out index to a response, the file reader is
an `Except` value, and `Date.now()` is a `Nat` parameter (successive reads of
the clock inside one handler are collapsed to the single parameter; the code
only uses them as opaque ids and timestamps).  JavaScript numbers that the app
produces are natural numbers (millisecond timestamps and counts, all far below
2^53, so floating point rounding never occurs).  JavaScript string truthiness
(`if (s)`) is translated as `s ≠ ""` on `String`, and optional fields as
`Option`.
-/

namespace AiDesigner

/-- Sender enumeration from `types.ts` (reconstructed from its use in
`App.tsx`: `Sender.User` and `Sender.AI`). -/
inductive Sender where
  | User : Sender
  | AI : Sender
deriving DecidableEq, Repr

/-- `ImageAttachment` : MIME type plus base64 payload (`types.ts`, as used in
`App.tsx` and `geminiService.ts`). -/
structure ImageAttachment where
  mimeType : String
  data : String
deriving DecidableEq, Repr

/-- `GeneratedImage` : id, base64 payload, originating prompt, timestamp
(fields as built in `App.tsx` `handleSend`). -/
structure GeneratedImage where
  id : String
  data : String
  prompt : String
  timestamp : Nat
deriving DecidableEq, Repr

/-- `Message` : chat message as built in `App.tsx`.  `attachments` is set only
on user messages and `generatedImages` only on successful AI messages; absent
(`undefined`) fields are `none`. -/
structure Message where
  id : String
  sender : Sender
  text : String
  attachments : Option (List ImageAttachment)
  generatedImages : Option (List GeneratedImage)
  timestamp : Nat
deriving DecidableEq, Repr

/-- `Session` : fields exactly as initialised by `createNewSession` and
mutated in `App.tsx`. -/
structure Session where
  id : String
  title : String
  messages : List Message
  gallery : List GeneratedImage
  activeReferenceImage : Option ImageAttachment
  lastModified : Nat
  aspectRatio : String
  numberOfImages : Nat
deriving DecidableEq, Repr

/-! ### Gemini service (`src/services/geminiService.ts`) -/

/-- A content part of a request or of a model response: optional inline image
data and optional text (the two fields the service reads or writes). -/
structure Part where
  inlineData : Option ImageAttachment := none
  text : Option String := none
deriving DecidableEq, Repr

/-- `candidate.content` : a list of parts. -/
structure Content where
  parts : List Part
deriving DecidableEq, Repr

/-- A response candidate: optional content and optional finish reason. -/
structure Candidate where
  content : Option Content := none
  finishReason : Option String := none
deriving DecidableEq, Repr

/-- A model response: its list of candidates. -/
structure GenResponse where
  candidates : List Candidate
deriving DecidableEq, Repr

/-- The errors `generateOrEditImage` can throw, one constructor per `throw`
site in `geminiService.ts`; the payloads are the data interpolated into the
thrown `Error` message (see `GenError.message`). -/
inductive GenError where
  | apiKeyMissing : GenError
  | modelResponse : String → GenError
  | generationStopped : String → GenError
  | noImageData : GenError
deriving DecidableEq, Repr

/-- The `message` of the JavaScript `Error` corresponding to each
`GenError`, matching the template literals in `geminiService.ts`. -/
def GenError.message : GenError → String
  | .apiKeyMissing => "API Key not found. Please check your environment variables."
  | .modelResponse t => "Model response: \"" ++ t ++ "\""
  | .generationStopped r => "Generation stopped due to: " ++ r
  | .noImageData => "No image data found in response."

/-! ### JavaScript string builtins

The source calls two string methods of the JavaScript platform; both are
modelled on the character list (JavaScript indexes UTF-16 units, this model
indexes characters — they agree on the basic multilingual plane). -/

/-- JavaScript `s.slice(0, n)` : the first `n` characters of `s`. -/
def jsSlice (n : Nat) (s : String) : String :=
  List.asString (s.data.take n)

/-- JavaScript `String.prototype.trim` : strip leading and trailing
whitespace. -/
def jsTrim (s : String) : String :=
  List.asString (((s.data.dropWhile Char.isWhitespace).reverse.dropWhile
    Char.isWhitespace).reverse)

/-- The image payload a part carries: `part.inlineData && part.inlineData.data`
(an empty `data` string is falsy in JavaScript, hence `none`). -/
def partImage (p : Part) : Option String :=
  match p.inlineData with
  | some d => if d.data = "" then none else some d.data
  | none => none

/-- The text a part contributes to `textOutput` (`if (part.text) textOutput +=
part.text`; a missing text contributes nothing, and appending an empty string
is the identity, so both falsy cases give `""`). -/
def partText (p : Part) : String :=
  match p.text with
  | some t => t
  | none => ""

/-- The `for (const part of content.parts)` loop of `generateSingleImage`:
returns the first inline image payload, or, after exhausting the parts, the
accumulated `textOutput`. -/
def scanParts : List Part → String → Except String String
  | [], acc => Except.error acc
  | p :: ps, acc =>
    match partImage p with
    | some d => Except.ok d
    | none => scanParts ps (acc ++ partText p)

/-- The `finishReason` check of `generateSingleImage`: reached only when the
parts produced neither an image nor text.  A truthy reason other than `STOP`
is surfaced; otherwise the generic no-image error is thrown. -/
def checkFinishReason (c : Candidate) : Except GenError String :=
  match c.finishReason with
  | some reason =>
    if reason ≠ "" ∧ reason ≠ "STOP" then Except.error (GenError.generationStopped reason)
    else Except.error GenError.noImageData
  | none => Except.error GenError.noImageData

/-- Response parsing of `generateSingleImage` (`geminiService.ts`): scan the
first candidate's parts for inline image data; failing that, throw the
truncated `textOutput` if non-empty; failing that, inspect the finish
reason. -/
def parseResponse (r : GenResponse) : Except GenError String :=
  match r.candidates with
  | [] => Except.error GenError.noImageData
  | c :: _ =>
    match c.content with
    | some content =>
      match scanParts content.parts "" with
      | Except.ok d => Except.ok d
      | Except.error textOutput =>
        if textOutput ≠ "" then
          Except.error (GenError.modelResponse
            (jsSlice 200 textOutput ++ if 200 < textOutput.length then "..." else ""))
        else checkFinishReason c
    | none => checkFinishReason c

/-- The mandatory style instruction of `generateSingleImage`, including the
reference-image-dependent suffix. -/
def styleInstruction (hasRef : Bool) : String :=
  " Style: product editorial photography, award winning style, for fashion and other products." ++
    (if hasRef then " Rearrange the product into a more editorial professional product photo."
     else " Composition: Professional editorial product layout.")

/-- The full prompt string `generateSingleImage` sends: core prompt (user text
or fallback), style instruction and aspect-ratio directive, joined exactly as
the template literal does. -/
def fullPrompt (prompt aspectRatio : String) (hasRef : Bool) : String :=
  let aspectText := " Aspect ratio: " ++ aspectRatio ++ "."
  let corePrompt :=
    if prompt ≠ "" then prompt
    else if hasRef then "Generate a variation of this image."
    else "Generate an image of a high-end product."
  corePrompt ++ " " ++ styleInstruction hasRef ++ " " ++ aspectText

/-- The `parts` array `generateSingleImage` sends: the reference image first
when present, then the text part with the full prompt. -/
def requestParts (prompt aspectRatio : String) (ref : Option ImageAttachment) : List Part :=
  (match ref with
   | some r => [{ inlineData := some r, text := none }]
   | none => []) ++
  [{ inlineData := none, text := some (fullPrompt prompt aspectRatio ref.isSome) }]

/-- `Promise.all` over the fan-out results: the ordered list of every payload
when all succeed, or the failure of some request. -/
def promiseAll : List (Except GenError String) → Except GenError (List String)
  | [] => Except.ok []
  | Except.ok x :: rest => (promiseAll rest).map (fun l => x :: l)
  | Except.error e :: _ => Except.error e

/-- `generateOrEditImage` (`geminiService.ts`): refuse to run without an API
key, then issue `numberOfImages` single-image requests — all with the same
parts `requestParts prompt aspectRatio referenceImage` — and await them all.
The external model is the oracle `api`, mapping the request parts and the
fan-out index to that request's response. -/
def generateOrEditImage (apiKey prompt aspectRatio : String) (numberOfImages : Nat)
    (referenceImage : Option ImageAttachment)
    (api : List Part → Nat → GenResponse) : Except GenError (List String) :=
  if apiKey = "" then Except.error GenError.apiKeyMissing
  else
    promiseAll ((List.range numberOfImages).map fun i =>
      parseResponse (api (requestParts prompt aspectRatio referenceImage) i))

/-! ### Decimal string ids

`createNewSession` derives the session id from `Date.now().toString()`, so
distinct clock values give distinct ids.  We prove that `toString` on `Nat`
is injective (no such lemma ships with the library). -/

/-- The decimal digit characters of `n`, most significant first: the list
`Nat.toDigits 10 n` produces once its fuel suffices. -/
def decChars (n : Nat) : List Char :=
  if n < 10 then [Nat.digitChar n]
  else decChars (n / 10) ++ [Nat.digitChar (n % 10)]
decreasing_by exact Nat.div_lt_self (by omega) (by omega)

/-- Read a decimal digit string back as a number. -/
def ofDecChars (l : List Char) : Nat :=
  l.foldl (fun a c => a * 10 + (c.toNat - 48)) 0

/-! ### Session store (`src/App.tsx`) -/

/-- `createNewSession` from `App.tsx`.  `Date.now()` is the `now` parameter;
the source stores its decimal string as the id. -/
def createNewSession (now : Nat) : Session :=
  { id := toString now
    title := ""
    messages := []
    gallery := []
    activeReferenceImage := none
    lastModified := now
    aspectRatio := "3:4"
    numberOfImages := 1 }

/-- The app-level state the session claims range over: the session collection,
the current-session id, and the clock supplying `Date.now()` values.  Real
time strictly increases between user actions, so each consumed clock value is
bumped by (at least) one. -/
structure AppState where
  sessions : List Session
  currentId : String
  clock : Nat
deriving Repr

/-- The ensure-valid-current-session effect of `App.tsx`: if no session's id
matches `currentSessionId`, select the first session, or create a fresh one
when the list is empty. -/
def ensureValidCurrent (st : AppState) : AppState :=
  if st.sessions.any (fun s => s.id = st.currentId) then st
  else
    match st.sessions with
    | s :: _ => { st with currentId := s.id }
    | [] =>
      let ns := createNewSession st.clock
      { sessions := [ns], currentId := ns.id, clock := st.clock + 1 }

/-- A create-session or delete-session user action. -/
inductive SessionOp where
  | create : SessionOp
  | delete : String → SessionOp

/-- The raw state update of `handleCreateSession` / `handleDeleteSession`:
create prepends a fresh session and selects it; delete filters by id and
substitutes a fresh session when the filtered list is empty (leaving
`currentSessionId` untouched — the ensure-valid effect repairs it). -/
def applyOp (st : AppState) : SessionOp → AppState
  | SessionOp.create =>
    let ns := createNewSession st.clock
    { sessions := ns :: st.sessions, currentId := ns.id, clock := st.clock + 1 }
  | SessionOp.delete id =>
    let filtered := st.sessions.filter (fun s => s.id ≠ id)
    if filtered.isEmpty then
      { st with sessions := [createNewSession st.clock], clock := st.clock + 1 }
    else
      { st with sessions := filtered }

/-- One user action followed by the ensure-valid-current effect (which React
runs after every state change). -/
def step (st : AppState) (op : SessionOp) : AppState :=
  ensureValidCurrent (applyOp st op)

/-- The initial state on first launch: one fresh session, an empty saved
current id, then the ensure-valid effect. -/
def initState (t0 : Nat) : AppState :=
  ensureValidCurrent { sessions := [createNewSession t0], currentId := "", clock := t0 + 1 }

/-- The common shape of every `updateCurrentSession` updater application:
apply the pure updater and stamp `lastModified` with `Date.now()`. -/
def applyUpdate (now : Nat) (updater : Session → Session) (s : Session) : Session :=
  { updater s with lastModified := now }

/-- `updateCurrentSession` from `App.tsx`, acting on the session collection:
map the stamped updater over the sessions whose id equals the current id. -/
def updateCurrentSession (currentId : String) (now : Nat) (updater : Session → Session)
    (sessions : List Session) : List Session :=
  sessions.map fun s => if s.id = currentId then applyUpdate now updater s else s

/-! ### Send flow (`handleSend` in `src/App.tsx`) -/

/-- The slice of a browser `File` object the send flow reads (`file.type`). -/
structure File where
  type : String
deriving DecidableEq, Repr

/-- The arguments of the (single) `generateOrEditImage` invocation a send
issues, recorded so that theorems can speak about the outgoing request. -/
structure GenCall where
  prompt : String
  aspectRatio : String
  count : Nat
  ref : Option ImageAttachment
deriving DecidableEq, Repr

/-- The state `handleSend` leaves behind: the (possibly updated) current
session, the input/file/loading UI state, and the generation call it issued
(`none` when it returned before calling the service). -/
structure SendResult where
  session : Session
  input : String
  selectedFile : Option File
  isLoading : Bool
  request : Option GenCall
deriving DecidableEq, Repr

/-- The apostrophe character, kept out of string literals. -/
def apostrophe : Char := Char.ofNat 39

/-- The string "I've" as `handleSend` interpolates it. -/
def iVe : String := "I" ++ String.singleton apostrophe ++ "ve"

/-- Everything `handleSend` does after the attachment bookkeeping: append the
user message (deriving the title on first write), call `generateOrEditImage`,
and append either the AI success message plus gallery images or the AI error
message. -/
def sendCore (apiKey : String) (api : List Part → Nat → GenResponse) (now : Nat)
    (currentInput currentAspectRatio : String) (currentNumImages : Nat)
    (attachmentForRequest : Option ImageAttachment)
    (messageAttachments : List ImageAttachment) (currentFile : Option File)
    (s : Session) : SendResult :=
  let userMessage : Message :=
    { id := toString now, sender := Sender.User, text := currentInput
      attachments := some messageAttachments, generatedImages := none, timestamp := now }
  let s2 := applyUpdate now (fun s =>
    let newMessages := s.messages ++ [userMessage]
    let newTitle :=
      if s.title = "" ∧ currentInput ≠ "" then
        jsSlice 30 currentInput ++ (if 30 < currentInput.length then "..." else "")
      else if s.title = "" ∧ currentFile.isSome then "Image Upload"
      else s.title
    { s with messages := newMessages, title := newTitle }) s
  let call : GenCall :=
    { prompt := currentInput, aspectRatio := currentAspectRatio
      count := currentNumImages, ref := attachmentForRequest }
  match generateOrEditImage apiKey currentInput currentAspectRatio currentNumImages
      attachmentForRequest api with
  | Except.ok imageBytesArray =>
    let generatedImages : List GeneratedImage := imageBytesArray.mapIdx fun idx bytes =>
      { id := toString now ++ "-" ++ toString idx, data := bytes
        prompt :=
          if currentInput ≠ "" then currentInput
          else if attachmentForRequest.isSome then "Variation of image"
          else "Generated Image"
        timestamp := now }
    let countText :=
      if 1 < generatedImages.length then
        " " ++ toString generatedImages.length ++ " images"
      else ""
    let aiText :=
      if attachmentForRequest.isSome ∧ currentFile = none then
        iVe ++ " updated the reference image based on: \"" ++ currentInput ++ "\" (" ++
          currentAspectRatio ++ ")" ++ countText
      else if attachmentForRequest.isSome ∧ currentFile.isSome then
        if currentInput ≠ "" then
          "Here is a variation based on your new image: \"" ++ currentInput ++ "\" (" ++
            currentAspectRatio ++ ")" ++ countText
        else
          "Here is a variation of your uploaded image (" ++ currentAspectRatio ++ ")" ++ countText
      else
        iVe ++ " generated" ++ countText ++ " for you based on: \"" ++ currentInput ++ "\" (" ++
          currentAspectRatio ++ ")"
    let aiMessage : Message :=
      { id := toString (now + 1), sender := Sender.AI, text := aiText
        attachments := none, generatedImages := some generatedImages, timestamp := now }
    let s3 := applyUpdate now (fun s =>
      { s with messages := s.messages ++ [aiMessage]
               gallery := s.gallery ++ generatedImages }) s2
    { session := s3, input := "", selectedFile := none, isLoading := false
      request := some call }
  | Except.error e =>
    let msg := if e.message = "" then "Unknown error occurred." else e.message
    let errorMessage : Message :=
      { id := toString (now + 1), sender := Sender.AI
        text := "I encountered an error: " ++ msg ++ ". Please try again."
        attachments := none, generatedImages := none, timestamp := now }
    let s3 := applyUpdate now (fun s => { s with messages := s.messages ++ [errorMessage] }) s2
    { session := s3, input := "", selectedFile := none, isLoading := false
      request := some call }

/-- `handleSend` from `App.tsx`, modelled at the level of the current session.
`fileRead` is the outcome of the `fileToBase64` promise for the selected file
(the file reader is an external effect), `api` the Gemini oracle, and `now`
the `Date.now()` clock.  The early guard, the file-read failure abort, the
reference-image bookkeeping and the message appends follow the source line by
line. -/
def handleSend (apiKey : String) (api : List Part → Nat → GenResponse)
    (fileRead : Except Unit String) (now : Nat)
    (input : String) (selectedFile : Option File) (isLoading : Bool)
    (session : Session) : SendResult :=
  if (jsTrim input = "" ∧ selectedFile = none) ∨ isLoading then
    { session := session, input := input, selectedFile := selectedFile
      isLoading := isLoading, request := none }
  else
    let currentInput := input
    let currentAspectRatio := session.aspectRatio
    let currentNumImages := if session.numberOfImages = 0 then 1 else session.numberOfImages
    match selectedFile with
    | some f =>
      match fileRead with
      | Except.error _ =>
        { session := session, input := "", selectedFile := none
          isLoading := false, request := none }
      | Except.ok base64 =>
        let newAttachment : ImageAttachment := { mimeType := f.type, data := base64 }
        let s1 := applyUpdate now
          (fun s => { s with activeReferenceImage := some newAttachment }) session
        sendCore apiKey api now currentInput currentAspectRatio currentNumImages
          (some newAttachment) [newAttachment] (some f) s1
    | none =>
      sendCore apiKey api now currentInput currentAspectRatio currentNumImages
        session.activeReferenceImage [] none session

/-- The text of a part list as the response scan accumulates it. -/
def collectText : List Part → String
  | [] => ""
  | p :: ps => partText p ++ collectText ps

/-- A candidate from whose parts the scan extracts neither an inline image nor
any text (including the no-content case, where the scan never runs). -/
def candidateSilent (c : Candidate) : Prop :=
  ∀ content, c.content = some content →
    content.parts.findSome? partImage = none ∧ collectText content.parts = ""

/-- State invariant between user actions: some session is present, the
current id occurs among the session ids, ids are pairwise distinct, and every
id is the decimal string of a clock value already consumed. -/
def Inv (st : AppState) : Prop :=
  st.sessions ≠ [] ∧
  st.currentId ∈ st.sessions.map Session.id ∧
  (st.sessions.map Session.id).Nodup ∧
  ∀ s ∈ st.sessions, ∃ k, k < st.clock ∧ s.id = toString k

/-- Weak invariant holding right after a raw create/delete update, before the
ensure-valid-current effect has run. -/
def WInv (st : AppState) : Prop :=
  st.sessions ≠ [] ∧
  (st.sessions.map Session.id).Nodup ∧
  ∀ s ∈ st.sessions, ∃ k, k < st.clock ∧ s.id = toString k

/-! ### Persistence round-trip (C9)

The persistence effect stores `JSON.stringify(sessions)` and restores it with
`JSON.parse`.  Both are platform builtins and the field layout of the data
comes from `types.ts`, which the repository snapshot does not include under
`src/`, so serialization is modelled from the spec (§6: "the serialized
session collection (JSON array)") over a JSON value tree: `stringify` maps
each session to its JSON value (dropping `undefined` optional fields, keeping
explicit `null`s), and `parse` typed at `Session[]` reads the fields back. -/

/-- Modelled from the spec: the JSON value tree that `JSON.stringify` /
`JSON.parse` exchange (§6 durable key-value store; numbers restricted to the
naturals the app produces). -/
inductive Json where
  | null : Json
  | str : String → Json
  | num : Nat → Json
  | arr : List Json → Json
  | obj : List (String × Json) → Json

/-- Modelled from the spec: element-wise parse of a serialized array, failing
when any element fails. -/
def decodeList {α : Type} (g : Json → Option α) : List Json → Option (List α)
  | [] => some []
  | x :: xs =>
    match g x with
    | some a => (decodeList g xs).map (fun l => a :: l)
    | none => none

/-- Modelled from the spec: the serialized form of the `Sender` enumeration of
the missing `types.ts` (two fixed, distinct values). -/
def senderToJson : Sender → Json
  | Sender.User => Json.str "user"
  | Sender.AI => Json.str "ai"

/-- Modelled from the spec: reading a serialized `Sender` back. -/
def senderOfJson : Json → Option Sender
  | Json.str "user" => some Sender.User
  | Json.str "ai" => some Sender.AI
  | _ => none

/-- Modelled from the spec: serialization of an `ImageAttachment`. -/
def attachmentToJson (a : ImageAttachment) : Json :=
  Json.obj [("mimeType", Json.str a.mimeType), ("data", Json.str a.data)]

/-- Modelled from the spec: deserialization of an `ImageAttachment`. -/
def attachmentOfJson : Json → Option ImageAttachment
  | Json.obj fields =>
    match fields.lookup "mimeType", fields.lookup "data" with
    | some (Json.str m), some (Json.str d) => some { mimeType := m, data := d }
    | _, _ => none
  | _ => none

/-- Modelled from the spec: serialization of a `GeneratedImage`. -/
def generatedImageToJson (g : GeneratedImage) : Json :=
  Json.obj [("id", Json.str g.id), ("data", Json.str g.data),
    ("prompt", Json.str g.prompt), ("timestamp", Json.num g.timestamp)]

/-- Modelled from the spec: deserialization of a `GeneratedImage`. -/
def generatedImageOfJson : Json → Option GeneratedImage
  | Json.obj fields =>
    match fields.lookup "id", fields.lookup "data", fields.lookup "prompt",
        fields.lookup "timestamp" with
    | some (Json.str i), some (Json.str d), some (Json.str p), some (Json.num t) =>
      some { id := i, data := d, prompt := p, timestamp := t }
    | _, _, _, _ => none
  | _ => none

/-- Modelled from the spec: serialization of a `Message`; `undefined` optional
fields (`attachments`, `generatedImages`) are dropped by `JSON.stringify`. -/
def messageToJson (m : Message) : Json :=
  Json.obj
    ([("id", Json.str m.id), ("sender", senderToJson m.sender), ("text", Json.str m.text)] ++
     (match m.attachments with
      | some l => [("attachments", Json.arr (l.map attachmentToJson))]
      | none => []) ++
     (match m.generatedImages with
      | some l => [("generatedImages", Json.arr (l.map generatedImageToJson))]
      | none => []) ++
     [("timestamp", Json.num m.timestamp)])

/-- Modelled from the spec: deserialization of a `Message`; an absent optional
key reads back as `none`. -/
def messageOfJson : Json → Option Message
  | Json.obj fields =>
    match fields.lookup "id", fields.lookup "sender", fields.lookup "text",
        fields.lookup "timestamp" with
    | some (Json.str i), some sj, some (Json.str t), some (Json.num ts) =>
      match senderOfJson sj with
      | some snd =>
        match
          (match fields.lookup "attachments" with
           | none => some none
           | some (Json.arr xs) => (decodeList attachmentOfJson xs).map some
           | some _ => none),
          (match fields.lookup "generatedImages" with
           | none => some none
           | some (Json.arr xs) => (decodeList generatedImageOfJson xs).map some
           | some _ => none) with
        | some att, some gen =>
          some { id := i, sender := snd, text := t, attachments := att
                 generatedImages := gen, timestamp := ts }
        | _, _ => none
      | none => none
    | _, _, _, _ => none
  | _ => none

/-- Modelled from the spec: serialization of a `Session`; the always-present
`activeReferenceImage` field serializes `null` when cleared. -/
def sessionToJson (s : Session) : Json :=
  Json.obj [("id", Json.str s.id), ("title", Json.str s.title),
    ("messages", Json.arr (s.messages.map messageToJson)),
    ("gallery", Json.arr (s.gallery.map generatedImageToJson)),
    ("activeReferenceImage",
      match s.activeReferenceImage with
      | some a => attachmentToJson a
      | none => Json.null),
    ("lastModified", Json.num s.lastModified),
    ("aspectRatio", Json.str s.aspectRatio),
    ("numberOfImages", Json.num s.numberOfImages)]

/-- Modelled from the spec: deserialization of a `Session`. -/
def sessionOfJson : Json → Option Session
  | Json.obj fields =>
    match fields.lookup "id", fields.lookup "title", fields.lookup "messages",
        fields.lookup "gallery", fields.lookup "activeReferenceImage",
        fields.lookup "lastModified", fields.lookup "aspectRatio",
        fields.lookup "numberOfImages" with
    | some (Json.str i), some (Json.str t), some (Json.arr ms), some (Json.arr gs),
        some refj, some (Json.num lm), some (Json.str ar), some (Json.num ni) =>
      match decodeList messageOfJson ms, decodeList generatedImageOfJson gs,
          (match refj with
           | Json.null => some none
           | j => (attachmentOfJson j).map some) with
      | some msgs, some gal, some ref =>
        some { id := i, title := t, messages := msgs, gallery := gal
               activeReferenceImage := ref, lastModified := lm
               aspectRatio := ar, numberOfImages := ni }
      | _, _, _ => none
    | _, _, _, _, _, _, _, _ => none
  | _ => none

/-- Modelled from the spec: `JSON.stringify` of the whole session collection
(a JSON array). -/
def sessionsToJson (l : List Session) : Json :=
  Json.arr (l.map sessionToJson)

/-- Modelled from the spec: `JSON.parse` of the stored session collection. -/
def sessionsOfJson : Json → Option (List Session)
  | Json.arr xs => decodeList sessionOfJson xs
  | _ => none

/-! ### Properties of the decimal id strings -/

theorem toDigitsCore_eq_decChars (f : Nat) :
    ∀ n l, n < f → Nat.toDigitsCore 10 f n l = decChars n ++ l := by
  induction f with
  | zero => intro n l h; omega
  | succ f ih =>
    intro n l _
    show (if n / 10 = 0 then Nat.digitChar (n % 10) :: l
          else Nat.toDigitsCore 10 f (n / 10) (Nat.digitChar (n % 10) :: l)) = decChars n ++ l
    by_cases h10 : n / 10 = 0
    · have hn : n < 10 := by omega
      rw [if_pos h10, decChars, if_pos hn, Nat.mod_eq_of_lt hn]
      rfl
    · have hn : ¬ n < 10 := by omega
      rw [if_neg h10, ih (n / 10) _ (by omega)]
      conv_rhs => rw [decChars, if_neg hn]
      rw [List.append_assoc]
      rfl

/-- The value a decimal digit character denotes. -/
theorem digitChar_toNat (d : Nat) (h : d < 10) : (Nat.digitChar d).toNat = 48 + d := by
  interval_cases d <;> rfl

theorem ofDecChars_decChars (n : Nat) : ofDecChars (decChars n) = n := by
  induction n using Nat.strong_induction_on with
  | _ n ih =>
    by_cases h : n < 10
    · rw [decChars, if_pos h]
      simp [ofDecChars, digitChar_toNat n h]
    · rw [decChars, if_neg h]
      have hdiv := ih (n / 10) (Nat.div_lt_self (by omega) (by omega))
      have hdig := digitChar_toNat (n % 10) (by omega)
      simp only [ofDecChars, List.foldl_append, List.foldl] at hdiv ⊢
      rw [hdiv, hdig]
      omega

theorem decChars_injective {m n : Nat} (h : decChars m = decChars n) : m = n := by
  have := congrArg ofDecChars h
  rwa [ofDecChars_decChars, ofDecChars_decChars] at this

theorem nat_toString_eq (n : Nat) : toString n = (decChars n).asString := by
  show Nat.repr n = (decChars n).asString
  unfold Nat.repr Nat.toDigits
  rw [toDigitsCore_eq_decChars (n + 1) n [] (Nat.lt_succ_self n), List.append_nil]

theorem nat_toString_injective {m n : Nat} (h : toString m = toString n) : m = n := by
  rw [nat_toString_eq, nat_toString_eq] at h
  exact decChars_injective (congrArg String.data h)

/-! ### Helper lemmas for the fan-out and the response scan -/

theorem scanParts_eq (ps : List Part) :
    ∀ acc, scanParts ps acc =
      match ps.findSome? partImage with
      | some d => Except.ok d
      | none => Except.error (acc ++ collectText ps) := by
  induction ps with
  | nil => intro acc; simp [scanParts, collectText]
  | cons p ps ih =>
    intro acc
    cases hp : partImage p with
    | some d => simp [scanParts, hp, List.findSome?_cons, collectText]
    | none =>
      simp only [scanParts, hp, ih, List.findSome?_cons, collectText]
      cases ps.findSome? partImage <;> simp [String.append_assoc]

theorem promiseAll_eq_ok (l : List (Except GenError String)) (out : List String)
    (h : promiseAll l = Except.ok out) : l = out.map Except.ok := by
  induction l generalizing out with
  | nil =>
    simp only [promiseAll, Except.ok.injEq] at h
    subst h; rfl
  | cons x xs ih =>
    cases x with
    | ok v =>
      simp only [promiseAll] at h
      cases hxs : promiseAll xs with
      | ok tail =>
        rw [hxs] at h
        simp only [Except.map, Except.ok.injEq] at h
        subst h
        rw [List.map_cons, ih tail hxs]
      | error e => rw [hxs] at h; simp [Except.map] at h
    | error e => simp [promiseAll] at h

theorem promiseAll_error_of_mem (l : List (Except GenError String)) (e : GenError)
    (hx : Except.error e ∈ l) : ∃ e', promiseAll l = Except.error e' := by
  induction l with
  | nil => cases hx
  | cons y ys ih =>
    rcases List.mem_cons.mp hx with h | h
    · subst h; exact ⟨e, rfl⟩
    · cases y with
      | ok v =>
        obtain ⟨e', he'⟩ := ih h
        exact ⟨e', by simp [promiseAll, he', Except.map]⟩
      | error e'' => exact ⟨e'', rfl⟩

/-! ### Claims about the image request service -/

/-- C7: with an absent API key (the empty string), `generateOrEditImage`
fails immediately with the missing-credential error for every choice of
prompt, aspect ratio, image count and reference image — and for every
behaviour of the network oracle, i.e. before any network request is
consulted. -/
theorem missing_api_key_fails (prompt aspectRatio : String) (n : Nat)
    (ref : Option ImageAttachment) (api : List Part → Nat → GenResponse) :
    generateOrEditImage "" prompt aspectRatio n ref api =
      Except.error GenError.apiKeyMissing := by
  simp [generateOrEditImage]

/-- C5: every call sends, as the single text part following the optional
reference-image part, the user text — or a reference-dependent fallback when
the user text is empty — concatenated with the style directive (whose phrasing
depends on the presence of a reference image) and the aspect-ratio directive
naming the given ratio. -/
theorem prompt_sent_to_model (prompt aspectRatio : String) (ref : Option ImageAttachment) :
    requestParts prompt aspectRatio ref =
      (match ref with
       | some r => [{ inlineData := some r, text := none }]
       | none => []) ++
      [{ inlineData := none
         text := some
           ((if prompt = "" then
               (if ref.isSome then "Generate a variation of this image."
                else "Generate an image of a high-end product.")
             else prompt) ++ " " ++ styleInstruction ref.isSome ++ " " ++
            (" Aspect ratio: " ++ aspectRatio ++ ".")) }] := by
  by_cases hp : prompt = "" <;>
    cases ref <;>
      simp [requestParts, fullPrompt, hp]

/-- C1: with an API key present, `generateOrEditImage` is all-or-nothing over
its `n`-fold fan-out: a successful call returns exactly `n` payloads, the
`i`-th being the parsed result of the `i`-th issued request, and if any one of
the `n` requests fails then the whole call fails. -/
theorem generateOrEditImage_all_or_nothing
    (apiKey prompt aspectRatio : String) (n : Nat) (ref : Option ImageAttachment)
    (api : List Part → Nat → GenResponse) (hkey : apiKey ≠ "") :
    (∀ out, generateOrEditImage apiKey prompt aspectRatio n ref api = Except.ok out →
      out.length = n ∧
      ∀ i, (hi : i < out.length) →
        parseResponse (api (requestParts prompt aspectRatio ref) i) =
          Except.ok (out.get ⟨i, hi⟩)) ∧
    ((∃ i, i < n ∧ ∃ e,
        parseResponse (api (requestParts prompt aspectRatio ref) i) = Except.error e) →
      ∃ e, generateOrEditImage apiKey prompt aspectRatio n ref api = Except.error e) := by
  unfold generateOrEditImage
  rw [if_neg hkey]
  constructor
  · intro out h
    have hl := promiseAll_eq_ok _ _ h
    have hlen : out.length = n := by
      have := congrArg List.length hl
      simpa using this.symm
    refine ⟨hlen, ?_⟩
    intro i hi
    have h1 : ((List.range n).map fun i =>
        parseResponse (api (requestParts prompt aspectRatio ref) i))[i]? =
        some (parseResponse (api (requestParts prompt aspectRatio ref) i)) := by
      rw [List.getElem?_map, List.getElem?_range (hlen ▸ hi)]
      rfl
    rw [hl, List.getElem?_map] at h1
    rw [List.getElem?_eq_getElem hi] at h1
    simp only [Option.map_some', Option.some.injEq] at h1
    rw [← h1]
    simp [List.get_eq_getElem]
  · rintro ⟨i, hin, e, hpe⟩
    apply promiseAll_error_of_mem _ e
    rw [← hpe]
    exact List.mem_map_of_mem _ (List.mem_range.mpr hin)

/-- Witness for C1 at a concrete input: two fan-out requests against an oracle
whose responses carry no candidates make the whole call fail. -/
theorem generateOrEditImage_all_or_nothing_witness :
    ∃ e, generateOrEditImage "key" "a red chair" "3:4" 2 none
      (fun _ _ => { candidates := [] }) = Except.error e :=
  (generateOrEditImage_all_or_nothing "key" "a red chair" "3:4" 2 none
      (fun _ _ => { candidates := [] }) (by decide)).2
    ⟨0, by omega, GenError.noImageData, rfl⟩

/-- C3 counterexample: on a response whose only part is the refusal text
"no", the parse fails with the model-response error — but the thrown error's
message is the text wrapped in the fixed frame, not the bare concatenation the
claim states. -/
theorem modelResponse_message_is_wrapped :
    parseResponse ⟨[{ content := some ⟨[{ inlineData := none, text := some "no" }]⟩
                      finishReason := none }]⟩ =
      Except.error (GenError.modelResponse "no") ∧
    GenError.message (GenError.modelResponse "no") ≠ "no" := by
  constructor
  · rfl
  · decide

/-- C3 (amended): per-request response parsing.  (1) The first content part of
the first candidate carrying inline image data is returned.  (2) With no image
part but a non-empty concatenated text, the call fails with the model-response
error carrying that text truncated to 200 characters plus an ellipsis when
longer.  (3) Otherwise a reported (truthy) finish reason other than STOP is
surfaced.  (4) Otherwise the generic no-image error is raised.  (5) The
message of the model-response error embeds the carried text in the fixed
frame, so it is not the bare concatenation. -/
theorem parseResponse_spec :
    (∀ (c : Candidate) (rest : List Candidate) (content : Content) (d : String),
      c.content = some content → content.parts.findSome? partImage = some d →
      parseResponse ⟨c :: rest⟩ = Except.ok d) ∧
    (∀ (c : Candidate) (rest : List Candidate) (content : Content),
      c.content = some content → content.parts.findSome? partImage = none →
      collectText content.parts ≠ "" →
      parseResponse ⟨c :: rest⟩ = Except.error (GenError.modelResponse
        (jsSlice 200 (collectText content.parts) ++
          (if 200 < (collectText content.parts).length then "..." else "")))) ∧
    (∀ (c : Candidate) (rest : List Candidate) (reason : String),
      candidateSilent c → c.finishReason = some reason → reason ≠ "" → reason ≠ "STOP" →
      parseResponse ⟨c :: rest⟩ = Except.error (GenError.generationStopped reason)) ∧
    (∀ (c : Candidate) (rest : List Candidate),
      candidateSilent c →
      (c.finishReason = none ∨ c.finishReason = some "" ∨ c.finishReason = some "STOP") →
      parseResponse ⟨c :: rest⟩ = Except.error GenError.noImageData) ∧
    (∀ t, (GenError.modelResponse t).message =
      "Model response: \"" ++ t ++ "\"") := by
  refine ⟨?_, ?_, ?_, ?_, ?_⟩
  · intro c rest content d hc himg
    simp [parseResponse, hc, scanParts_eq, himg]
  · intro c rest content hc himg htext
    simp [parseResponse, hc, scanParts_eq, himg, htext]
  · intro c rest reason hsilent hreason hne hstop
    unfold parseResponse
    cases hc : c.content with
    | some content =>
      obtain ⟨himg, htext⟩ := hsilent content hc
      simp [hc, scanParts_eq, himg, htext, checkFinishReason, hreason, hne, hstop]
    | none => simp [hc, checkFinishReason, hreason, hne, hstop]
  · intro c rest hsilent hreason
    unfold parseResponse
    have hfin : checkFinishReason c = Except.error GenError.noImageData := by
      rcases hreason with h | h | h <;> simp [checkFinishReason, h]
    cases hc : c.content with
    | some content =>
      obtain ⟨himg, htext⟩ := hsilent content hc
      simp [hc, scanParts_eq, himg, htext, hfin]
    | none => simp [hc, hfin]
  · intro t
    rfl

set_option maxRecDepth 4000 in
/-- Witness for C3 at concrete responses: a refusal-text-only response yields
the truncated-text error, exercising conjunct (2). -/
theorem parseResponse_spec_witness :
    parseResponse ⟨[{ content := some ⟨[{ inlineData := none, text := some "I cannot do that." }]⟩
                      finishReason := some "STOP" }]⟩ =
      Except.error (GenError.modelResponse "I cannot do that.") := by
  have h := parseResponse_spec.2.1
    { content := some ⟨[{ inlineData := none, text := some "I cannot do that." }]⟩
      finishReason := some "STOP" } []
    ⟨[{ inlineData := none, text := some "I cannot do that." }]⟩ rfl (by decide) (by decide)
  simpa using h

/-! ### Claims about the session store -/

/-- C10: when the current-session id matches no session, `updateCurrentSession`
leaves the collection unchanged — no session is mutated and no `lastModified`
is stamped. -/
theorem updateCurrentSession_no_match (currentId : String) (now : Nat)
    (updater : Session → Session) (sessions : List Session)
    (h : ∀ s ∈ sessions, s.id ≠ currentId) :
    updateCurrentSession currentId now updater sessions = sessions := by
  unfold updateCurrentSession
  exact List.map_congr_left (fun s hs => if_neg (h s hs)) |>.trans (List.map_id' sessions)

/-- Witness for C10 at a concrete collection whose only session does not carry
the (dangling) current id. -/
theorem updateCurrentSession_no_match_witness :
    updateCurrentSession "999" 7 (fun s => { s with title := "changed" })
      [{ id := "1", title := "", messages := [], gallery := [], activeReferenceImage := none
         lastModified := 0, aspectRatio := "3:4", numberOfImages := 1 }] =
      [{ id := "1", title := "", messages := [], gallery := [], activeReferenceImage := none
         lastModified := 0, aspectRatio := "3:4", numberOfImages := 1 }] :=
  updateCurrentSession_no_match "999" 7 _ _ (by decide)

/-! ### Claims about the send flow -/

theorem sendCore_session_title (apiKey : String) (api : List Part → Nat → GenResponse)
    (now : Nat) (ci ar : String) (k : Nat) (att : Option ImageAttachment)
    (matt : List ImageAttachment) (cf : Option File) (s : Session) :
    (sendCore apiKey api now ci ar k att matt cf s).session.title =
      (if s.title = "" ∧ ci ≠ "" then jsSlice 30 ci ++ (if 30 < ci.length then "..." else "")
       else if s.title = "" ∧ cf.isSome then "Image Upload"
       else s.title) := by
  unfold sendCore
  cases generateOrEditImage apiKey ci ar k att api <;> rfl

theorem sendCore_session_messages (apiKey : String) (api : List Part → Nat → GenResponse)
    (now : Nat) (ci ar : String) (k : Nat) (att : Option ImageAttachment)
    (matt : List ImageAttachment) (cf : Option File) (s : Session) :
    ∃ tail, (sendCore apiKey api now ci ar k att matt cf s).session.messages =
      s.messages ++
        ({ id := toString now, sender := Sender.User, text := ci
           attachments := some matt, generatedImages := none, timestamp := now } : Message)
        :: tail := by
  unfold sendCore
  cases generateOrEditImage apiKey ci ar k att api with
  | ok arr =>
    apply Exists.intro
    simp only [applyUpdate]
    rw [List.append_assoc]
    rfl
  | error e =>
    apply Exists.intro
    simp only [applyUpdate]
    rw [List.append_assoc]
    rfl

theorem sendCore_request (apiKey : String) (api : List Part → Nat → GenResponse)
    (now : Nat) (ci ar : String) (k : Nat) (att : Option ImageAttachment)
    (matt : List ImageAttachment) (cf : Option File) (s : Session) :
    (sendCore apiKey api now ci ar k att matt cf s).request =
      some { prompt := ci, aspectRatio := ar, count := k, ref := att } := by
  unfold sendCore
  cases generateOrEditImage apiKey ci ar k att api <;> rfl

/-- C8: when reading the newly selected file fails, the send aborts before
recording anything: the session (messages, gallery, title, reference image)
is unchanged, no generation request is issued, and the loading flag is back
to false. -/
theorem send_aborted_on_attachment_failure
    (apiKey : String) (api : List Part → Nat → GenResponse) (now : Nat) (input : String)
    (f : File) (s : Session) :
    handleSend apiKey api (Except.error ()) now input (some f) false s =
      { session := s, input := "", selectedFile := none, isLoading := false
        request := none } := by
  unfold handleSend
  rw [if_neg (by simp)]

/-- C4: the session title is written at most once by the send flow.  A
non-empty title survives any send unchanged; a send that proceeds (guard
passed, file read succeeded) into a session with an empty title sets it to the
30-character prefix of the prompt text with an ellipsis when longer, or to
"Image Upload" for a bare upload without text. -/
theorem session_title_first_write_wins
    (apiKey : String) (api : List Part → Nat → GenResponse) (fileRead : Except Unit String)
    (now : Nat) (input : String) (file : Option File) (loading : Bool) (s : Session) :
    (s.title ≠ "" →
      (handleSend apiKey api fileRead now input file loading s).session.title = s.title) ∧
    (s.title = "" → loading = false → ¬(jsTrim input = "" ∧ file = none) →
      (∀ f, file = some f → ∃ b, fileRead = Except.ok b) →
      (handleSend apiKey api fileRead now input file loading s).session.title =
        (if input ≠ "" then jsSlice 30 input ++ (if 30 < input.length then "..." else "")
         else "Image Upload")) := by
  constructor
  · intro ht
    unfold handleSend
    split
    · rfl
    · cases file with
      | some f =>
        cases fileRead with
        | error e => rfl
        | ok b =>
          rw [sendCore_session_title]
          simp [applyUpdate, ht]
      | none =>
        rw [sendCore_session_title]
        simp [ht]
  · intro ht hld hguard hread
    subst hld
    unfold handleSend
    rw [if_neg (by simpa using hguard)]
    cases file with
    | some f =>
      obtain ⟨b, hb⟩ := hread f rfl
      rw [hb, sendCore_session_title]
      simp only [applyUpdate, ht]
      by_cases hi : input = "" <;> simp [hi]
    | none =>
      rw [sendCore_session_title]
      have hi : input ≠ "" := by
        intro h
        exact hguard ⟨by rw [h]; rfl, rfl⟩
      simp [ht, hi]

/-- Witness for C4 at concrete inputs: a first send with prompt text "chair"
into an untitled session sets the title to "chair". -/
theorem session_title_first_write_wins_witness :
    (handleSend "key" (fun _ _ => { candidates := [] }) (Except.ok "b64data") 5 "chair" none
        false
        { id := "1", title := "", messages := [], gallery := [], activeReferenceImage := none
          lastModified := 0, aspectRatio := "3:4", numberOfImages := 1 }).session.title =
      "chair" := by
  have h := (session_title_first_write_wins "key" (fun _ _ => { candidates := [] })
      (Except.ok "b64data") 5 "chair" none false
      { id := "1", title := "", messages := [], gallery := [], activeReferenceImage := none
        lastModified := 0, aspectRatio := "3:4", numberOfImages := 1 }).2
    rfl rfl (by decide) (fun f hf => Option.noConfusion hf)
  rw [h]
  decide

/-- C6 counterexample: a send with empty input text, no newly selected file
and a persistent reference image present does NOT issue a generation request
and does NOT append a user message — the guard `(!input.trim() &&
!selectedFile)` returns immediately, leaving the session untouched. -/
theorem empty_input_with_reference_is_noop :
    (handleSend "key" (fun _ _ => { candidates := [] }) (Except.ok "b64") 9 "" none false
        { id := "1", title := "t", messages := [], gallery := []
          activeReferenceImage := some { mimeType := "image/png", data := "REF" }
          lastModified := 0, aspectRatio := "1:1", numberOfImages := 2 }).request = none ∧
    (handleSend "key" (fun _ _ => { candidates := [] }) (Except.ok "b64") 9 "" none false
        { id := "1", title := "t", messages := [], gallery := []
          activeReferenceImage := some { mimeType := "image/png", data := "REF" }
          lastModified := 0, aspectRatio := "1:1", numberOfImages := 2 }).session.messages =
      [] := by
  constructor <;> rfl

/-- C6 (amended): when a send proceeds with no newly selected file — which
requires non-whitespace input text — while the session holds a persistent
reference image, that image is attached to the outgoing generation request,
but the user message appended to the session has an empty attachment list. -/
theorem reference_attached_not_reshown
    (apiKey input : String) (api : List Part → Nat → GenResponse)
    (fileRead : Except Unit String) (now : Nat) (s : Session) (ref : ImageAttachment)
    (href : s.activeReferenceImage = some ref) (hinput : jsTrim input ≠ "") :
    (handleSend apiKey api fileRead now input none false s).request =
      some { prompt := input, aspectRatio := s.aspectRatio
             count := if s.numberOfImages = 0 then 1 else s.numberOfImages
             ref := some ref } ∧
    ∃ tail, (handleSend apiKey api fileRead now input none false s).session.messages =
      s.messages ++
        ({ id := toString now, sender := Sender.User, text := input
           attachments := some [], generatedImages := none, timestamp := now } : Message)
        :: tail := by
  have hred : handleSend apiKey api fileRead now input none false s =
      sendCore apiKey api now input s.aspectRatio
        (if s.numberOfImages = 0 then 1 else s.numberOfImages)
        s.activeReferenceImage [] none s := by
    unfold handleSend
    rw [if_neg (by simp [hinput])]
  rw [hred, href]
  exact ⟨sendCore_request apiKey api now input s.aspectRatio _ (some ref) [] none s,
    sendCore_session_messages apiKey api now input s.aspectRatio _ (some ref) [] none s⟩

/-- Witness for the amended C6 at concrete inputs. -/
theorem reference_attached_not_reshown_witness :
    (handleSend "key" (fun _ _ => { candidates := [] }) (Except.ok "b64") 9 "add trees" none
        false
        { id := "1", title := "t", messages := [], gallery := []
          activeReferenceImage := some { mimeType := "image/png", data := "REF" }
          lastModified := 0, aspectRatio := "1:1", numberOfImages := 2 }).request =
      some { prompt := "add trees", aspectRatio := "1:1"
             count := if (2 : Nat) = 0 then 1 else 2
             ref := some { mimeType := "image/png", data := "REF" } } ∧
    ∃ tail, (handleSend "key" (fun _ _ => { candidates := [] }) (Except.ok "b64") 9 "add trees"
        none false
        { id := "1", title := "t", messages := [], gallery := []
          activeReferenceImage := some { mimeType := "image/png", data := "REF" }
          lastModified := 0, aspectRatio := "1:1", numberOfImages := 2 }).session.messages =
      [] ++
        ({ id := toString 9, sender := Sender.User, text := "add trees"
           attachments := some [], generatedImages := none, timestamp := 9 } : Message)
        :: tail :=
  reference_attached_not_reshown "key" "add trees" (fun _ _ => { candidates := [] })
    (Except.ok "b64") 9
    { id := "1", title := "t", messages := [], gallery := []
      activeReferenceImage := some { mimeType := "image/png", data := "REF" }
      lastModified := 0, aspectRatio := "1:1", numberOfImages := 2 }
    { mimeType := "image/png", data := "REF" } rfl (by decide)

/-! ### The session-collection invariant (C2) -/

theorem ensureValidCurrent_establishes (st : AppState) (h : WInv st) :
    Inv (ensureValidCurrent st) := by
  obtain ⟨hne, hnd, hbound⟩ := h
  unfold ensureValidCurrent
  by_cases hany : st.sessions.any (fun s => s.id = st.currentId)
  · rw [if_pos hany]
    obtain ⟨s, hs, hid⟩ := List.any_eq_true.mp hany
    exact ⟨hne, List.mem_map.mpr ⟨s, hs, of_decide_eq_true hid⟩, hnd, hbound⟩
  · rw [if_neg hany]
    rcases hss : st.sessions with _ | ⟨s, rest⟩
    · exact absurd hss hne
    · refine ⟨?_, ?_, ?_, ?_⟩
      · show s :: rest ≠ []
        simp
      · show s.id ∈ List.map Session.id (s :: rest)
        exact List.mem_map.mpr ⟨s, List.mem_cons_self s rest, rfl⟩
      · show (List.map Session.id (s :: rest)).Nodup
        rw [← hss]
        exact hnd
      · show ∀ t ∈ s :: rest, ∃ k, k < st.clock ∧ t.id = toString k
        rw [← hss]
        exact hbound

theorem applyOp_preserves (st : AppState) (op : SessionOp) (h : WInv st) :
    WInv (applyOp st op) := by
  obtain ⟨hne, hnd, hbound⟩ := h
  cases op with
  | create =>
    refine ⟨?_, ?_, ?_⟩
    · show createNewSession st.clock :: st.sessions ≠ []
      simp
    · show (List.map Session.id (createNewSession st.clock :: st.sessions)).Nodup
      rw [List.map_cons, List.nodup_cons]
      refine ⟨?_, hnd⟩
      intro hmem
      obtain ⟨s, hs, hid⟩ := List.mem_map.mp hmem
      obtain ⟨k, hk, hkid⟩ := hbound s hs
      rw [hkid] at hid
      exact absurd (nat_toString_injective hid) (by omega)
    · show ∀ s ∈ createNewSession st.clock :: st.sessions,
        ∃ k, k < st.clock + 1 ∧ s.id = toString k
      intro s hs
      rcases List.mem_cons.mp hs with h | h
      · exact ⟨st.clock, by omega, by rw [h]; rfl⟩
      · obtain ⟨k, hk, hkid⟩ := hbound s h
        exact ⟨k, by omega, hkid⟩
  | delete id =>
    by_cases hemp : (st.sessions.filter (fun s => s.id ≠ id)).isEmpty
    · have ha : applyOp st (SessionOp.delete id) =
          { st with sessions := [createNewSession st.clock], clock := st.clock + 1 } := by
        simp only [applyOp]
        rw [if_pos hemp]
      rw [ha]
      refine ⟨?_, ?_, ?_⟩
      · show [createNewSession st.clock] ≠ []
        simp
      · show (List.map Session.id [createNewSession st.clock]).Nodup
        simp
      · show ∀ s ∈ [createNewSession st.clock], ∃ k, k < st.clock + 1 ∧ s.id = toString k
        intro s hs
        rcases List.mem_singleton.mp hs with h
        exact ⟨st.clock, by omega, by rw [h]; rfl⟩
    · have ha : applyOp st (SessionOp.delete id) =
          { st with sessions := st.sessions.filter (fun s => s.id ≠ id) } := by
        simp only [applyOp]
        rw [if_neg hemp]
      rw [ha]
      refine ⟨?_, ?_, ?_⟩
      · show st.sessions.filter (fun s => s.id ≠ id) ≠ []
        intro h
        apply hemp
        rw [h]
        rfl
      · show (List.map Session.id (st.sessions.filter (fun s => s.id ≠ id))).Nodup
        exact hnd.sublist ((List.filter_sublist st.sessions).map Session.id)
      · show ∀ s ∈ st.sessions.filter (fun s => s.id ≠ id),
          ∃ k, k < st.clock ∧ s.id = toString k
        intro s hs
        exact hbound s (List.mem_of_mem_filter hs)

theorem initState_Inv (t0 : Nat) : Inv (initState t0) := by
  apply ensureValidCurrent_establishes
  refine ⟨?_, ?_, ?_⟩
  · show [createNewSession t0] ≠ []
    simp
  · show (List.map Session.id [createNewSession t0]).Nodup
    simp
  · show ∀ s ∈ [createNewSession t0], ∃ k, k < t0 + 1 ∧ s.id = toString k
    intro s hs
    rcases List.mem_singleton.mp hs with h
    exact ⟨t0, by omega, by rw [h]; rfl⟩

theorem step_preserves (st : AppState) (op : SessionOp) (h : Inv st) :
    Inv (step st op) :=
  ensureValidCurrent_establishes _ (applyOp_preserves st op ⟨h.1, h.2.2.1, h.2.2.2⟩)

theorem countP_id_eq_one (l : List Session) (cur : String)
    (hnd : (l.map Session.id).Nodup) (hmem : cur ∈ l.map Session.id) :
    l.countP (fun s => decide (s.id = cur)) = 1 := by
  induction l with
  | nil => cases hmem
  | cons s rest ih =>
    simp only [List.map_cons, List.nodup_cons] at hnd
    rcases List.mem_cons.mp hmem with h | h
    · have hz : rest.countP (fun s => decide (s.id = cur)) = 0 := by
        apply List.countP_eq_zero.mpr
        intro t ht
        simp only [decide_eq_true_eq]
        intro hid
        exact hnd.1 (List.mem_map.mpr ⟨t, ht, hid.trans h⟩)
      rw [List.countP_cons, hz]
      simp [h]
    · have hsne : ¬(s.id = cur) := by
        intro he
        exact hnd.1 (by rw [he]; exact h)
      rw [List.countP_cons]
      simp [hsne, ih hnd.2 h]

/-- C2: after every finite sequence of create-session and delete-session
actions starting from the initial state, the session collection is non-empty
and the current-session id designates exactly one session of the
collection. -/
theorem session_collection_invariant (t0 : Nat) (ops : List SessionOp) :
    (ops.foldl step (initState t0)).sessions ≠ [] ∧
    (ops.foldl step (initState t0)).sessions.countP
      (fun s => decide (s.id = (ops.foldl step (initState t0)).currentId)) = 1 := by
  have hInv : ∀ st, Inv st → Inv (ops.foldl step st) := by
    induction ops with
    | nil => exact fun st h => h
    | cons op ops ih => exact fun st h => ih _ (step_preserves st op h)
  obtain ⟨h1, h2, h3, _⟩ := hInv _ (initState_Inv t0)
  exact ⟨h1, countP_id_eq_one _ _ h3 h2⟩

theorem decodeList_roundtrip {α : Type} (f : α → Json) (g : Json → Option α)
    (h : ∀ a, g (f a) = some a) (l : List α) : decodeList g (l.map f) = some l := by
  induction l with
  | nil => rfl
  | cons a l ih => simp [decodeList, h, ih]

theorem attachmentOfJson_toJson (a : ImageAttachment) :
    attachmentOfJson (attachmentToJson a) = some a := rfl

theorem generatedImageOfJson_toJson (g : GeneratedImage) :
    generatedImageOfJson (generatedImageToJson g) = some g := rfl

theorem messageOfJson_toJson (m : Message) :
    messageOfJson (messageToJson m) = some m := by
  obtain ⟨i, snd, t, att, gen, ts⟩ := m
  cases att <;> cases gen <;> cases snd <;>
    simp [messageToJson, messageOfJson, senderToJson, senderOfJson, List.lookup,
      decodeList_roundtrip attachmentToJson attachmentOfJson attachmentOfJson_toJson,
      decodeList_roundtrip generatedImageToJson generatedImageOfJson generatedImageOfJson_toJson]

theorem sessionOfJson_toJson (s : Session) :
    sessionOfJson (sessionToJson s) = some s := by
  obtain ⟨i, t, ms, gs, ref, lm, ar, ni⟩ := s
  cases ref <;>
    simp [sessionToJson, sessionOfJson, List.lookup, attachmentToJson, attachmentOfJson,
      decodeList_roundtrip messageToJson messageOfJson messageOfJson_toJson,
      decodeList_roundtrip generatedImageToJson generatedImageOfJson generatedImageOfJson_toJson]

/-- C9: serializing the session collection and deserializing it reproduces the
collection exactly — same session ids in the same order and equal field
values throughout. -/
theorem sessions_roundtrip (sessions : List Session) :
    sessionsOfJson (sessionsToJson sessions) = some sessions := by
  simp [sessionsToJson, sessionsOfJson,
    decodeList_roundtrip sessionToJson sessionOfJson sessionOfJson_toJson]

end AiDesigner
